import Mathlib

/-!
Verification of the business-idea evaluation service (`backend/main.py`).

The development shallowly embeds the two analysis paths of the service:

* `analyze_business_idea` — the deterministic rule-based Fallback Scorer
  (`backend/main.py`, `analyze_business_idea`);
* `get_ai_analysis` — the enrichment attempt (`backend/main.py`,
  `get_ai_analysis`), modelled over an explicit outcome of the single
  outbound HTTP call and a JSON-decoding oracle for `json.loads`;
* `evaluate_idea` — the analysis-selection core of the request handler
  (`backend/main.py`, `evaluate_idea`), modelled over an explicit event
  saying whether the enrichment attempt completed within the outer budget.

Python strings are modelled as Lean `String` (`len` is `String.length`,
both count code points); Python `int` as `Int`; Python dict/list results
as Lean structures and lists; exceptions as `Except`.
-/

/-- Case-insensitive substring matching: first-element-wise comparison of the
needle against the haystack. Models Python `needle in haystack` on the
character-list level (`seqStartsWith needle hay` = haystack starts with
needle). -/
def seqStartsWith : List Char → List Char → Bool
  | [], _ => true
  | _ :: _, [] => false
  | a :: as, b :: bs => a == b && seqStartsWith as bs

/-- Models Python `needle in haystack` for strings (as character lists):
true iff `needle` occurs contiguously in `hay`. -/
def seqOccurs (needle : List Char) : List Char → Bool
  | [] => needle.isEmpty
  | b :: bs => seqStartsWith needle (b :: bs) || seqOccurs needle bs

/-- Models Python `sub in s.lower()`: case-insensitive containment used by
the free-text field rules of `analyze_business_idea`. -/
def containsLower (s : String) (sub : String) : Bool :=
  seqOccurs sub.toList (s.toList.map Char.toLower)

/-- Input model `BusinessIdea` (`backend/main.py`, `class BusinessIdea`):
seven required string fields, no further validation. -/
structure BusinessIdea where
  businessName : String
  description : String
  targetMarket : String
  revenueModel : String
  costStructure : String
  distributionChannels : String
  industry : String
  deriving Repr, DecidableEq

/-- The `swot_analysis` sub-dict of the result returned by
`analyze_business_idea`. -/
structure SwotAnalysis where
  strengths : List String
  weaknesses : List String
  opportunities : List String
  threats : List String
  deriving Repr, DecidableEq

/-- The result dict shape of `analyze_business_idea`
(`swot_analysis`, `viability_score`, `risk_factors`, `summary`). -/
structure AnalysisResult where
  swot_analysis : SwotAnalysis
  viability_score : Int
  risk_factors : List String
  summary : List String
  deriving Repr, DecidableEq

/-! ### The Fallback Scorer, rule by rule

`analyze_business_idea` runs six independent rule sections in a fixed
order, each adding to `score` and appending fixed strings to some of the
accumulator lists.  Each section below is one contiguous block of the
Python source; the accumulated lists are the concatenations of the
per-section contributions in source order, and the score is the sum of
the per-section deltas (the source adds them sequentially to `score = 0`).
-/

/-- `# Analyze description length`: score delta (`+20` iff
`len(idea.description) > 100`). -/
def descriptionDelta (idea : BusinessIdea) : Int :=
  if idea.description.length > 100 then 20 else 0

/-- `# Analyze description length`: contribution to `strengths`. -/
def descriptionStrengths (idea : BusinessIdea) : List String :=
  if idea.description.length > 100 then ["Detailed business description"] else []

/-- `# Analyze description length`: contribution to `weaknesses`
(the `else` branch). -/
def descriptionWeaknesses (idea : BusinessIdea) : List String :=
  if idea.description.length > 100 then []
  else ["Business description could be more detailed"]

/-- `# Analyze target market`: score delta (`"global"` +15, `elif "local"`
+10). -/
def targetDelta (idea : BusinessIdea) : Int :=
  if containsLower idea.targetMarket "global" then 15
  else if containsLower idea.targetMarket "local" then 10
  else 0

/-- `# Analyze target market`: contribution to `strengths` (only the
`elif "local"` branch appends one). -/
def targetStrengths (idea : BusinessIdea) : List String :=
  if containsLower idea.targetMarket "global" then []
  else if containsLower idea.targetMarket "local" then ["Focused local market approach"]
  else []

/-- `# Analyze target market`: contribution to `opportunities`. -/
def targetOpportunities (idea : BusinessIdea) : List String :=
  if containsLower idea.targetMarket "global" then ["Global market potential"] else []

/-- `# Analyze target market`: contribution to `risk_factors`. -/
def targetRisks (idea : BusinessIdea) : List String :=
  if containsLower idea.targetMarket "global" then ["International market challenges"] else []

/-- `# Analyze revenue model`: score delta (`"subscription"` +20,
`elif "one-time"` +10). -/
def revenueDelta (idea : BusinessIdea) : Int :=
  if containsLower idea.revenueModel "subscription" then 20
  else if containsLower idea.revenueModel "one-time" then 10
  else 0

/-- `# Analyze revenue model`: contribution to `strengths`. -/
def revenueStrengths (idea : BusinessIdea) : List String :=
  if containsLower idea.revenueModel "subscription" then ["Recurring revenue model"] else []

/-- `# Analyze revenue model`: contribution to `weaknesses`
(the `elif "one-time"` branch). -/
def revenueWeaknesses (idea : BusinessIdea) : List String :=
  if containsLower idea.revenueModel "subscription" then []
  else if containsLower idea.revenueModel "one-time" then ["One-time revenue may limit growth"]
  else []

/-- `# Analyze cost structure`: score delta (`"low"` +15, `elif "high"` +5). -/
def costDelta (idea : BusinessIdea) : Int :=
  if containsLower idea.costStructure "low" then 15
  else if containsLower idea.costStructure "high" then 5
  else 0

/-- `# Analyze cost structure`: contribution to `strengths`. -/
def costStrengths (idea : BusinessIdea) : List String :=
  if containsLower idea.costStructure "low" then ["Low cost structure"] else []

/-- `# Analyze cost structure`: contribution to `risk_factors`
(the `elif "high"` branch). -/
def costRisks (idea : BusinessIdea) : List String :=
  if containsLower idea.costStructure "low" then []
  else if containsLower idea.costStructure "high" then ["High operational costs"]
  else []

/-- `# Analyze distribution channels`: score delta (`"online"` +15,
`elif "physical"` +10). -/
def distributionDelta (idea : BusinessIdea) : Int :=
  if containsLower idea.distributionChannels "online" then 15
  else if containsLower idea.distributionChannels "physical" then 10
  else 0

/-- `# Analyze distribution channels`: contribution to `strengths`. -/
def distributionStrengths (idea : BusinessIdea) : List String :=
  if containsLower idea.distributionChannels "online" then ["Online distribution capability"]
  else []

/-- `# Analyze distribution channels`: contribution to `opportunities`. -/
def distributionOpportunities (idea : BusinessIdea) : List String :=
  if containsLower idea.distributionChannels "online" then ["Digital market reach"] else []

/-- `# Analyze distribution channels`: contribution to `risk_factors`
(the `elif "physical"` branch). -/
def distributionRisks (idea : BusinessIdea) : List String :=
  if containsLower idea.distributionChannels "online" then []
  else if containsLower idea.distributionChannels "physical" then ["Physical distribution costs"]
  else []

/-- `# Industry-specific analysis`: score delta (exact string equality:
`"SaaS"` +15, `elif "E-commerce"` +10, `elif "Services"` +12). -/
def industryDelta (idea : BusinessIdea) : Int :=
  if idea.industry = "SaaS" then 15
  else if idea.industry = "E-commerce" then 10
  else if idea.industry = "Services" then 12
  else 0

/-- `# Industry-specific analysis`: contribution to `opportunities`
(the `"SaaS"` branch). -/
def industryOpportunities (idea : BusinessIdea) : List String :=
  if idea.industry = "SaaS" then ["Growing SaaS market"] else []

/-- `# Industry-specific analysis`: contribution to `strengths`
(`"SaaS"` and `"Services"` branches). -/
def industryStrengths (idea : BusinessIdea) : List String :=
  if idea.industry = "SaaS" then ["Scalable business model"]
  else if idea.industry = "E-commerce" then []
  else if idea.industry = "Services" then ["Service-based business stability"]
  else []

/-- `# Industry-specific analysis`: contribution to `threats`
(only the `elif "E-commerce"` branch appends one). -/
def industryThreats (idea : BusinessIdea) : List String :=
  if idea.industry = "SaaS" then []
  else if idea.industry = "E-commerce" then ["High competition in e-commerce"]
  else []

/-- The accumulated `score` before the final clamp: the per-section deltas
added (in source order) to the initial `score = 0`. -/
def rawScore (idea : BusinessIdea) : Int :=
  descriptionDelta idea + targetDelta idea + revenueDelta idea
    + costDelta idea + distributionDelta idea + industryDelta idea

/-- `score = min(max(score, 0), 100)` — the defensive clamp to [0, 100]. -/
def clampScore (s : Int) : Int :=
  min (max s 0) 100

/-- The accumulated `strengths` list: appends in source section order. -/
def strengthsFull (idea : BusinessIdea) : List String :=
  descriptionStrengths idea ++ targetStrengths idea ++ revenueStrengths idea
    ++ costStrengths idea ++ distributionStrengths idea ++ industryStrengths idea

/-- The accumulated `weaknesses` list: appends in source section order. -/
def weaknessesFull (idea : BusinessIdea) : List String :=
  descriptionWeaknesses idea ++ revenueWeaknesses idea

/-- The accumulated `opportunities` list: appends in source section order. -/
def opportunitiesFull (idea : BusinessIdea) : List String :=
  targetOpportunities idea ++ distributionOpportunities idea ++ industryOpportunities idea

/-- The accumulated `threats` list (only the industry section appends). -/
def threatsFull (idea : BusinessIdea) : List String :=
  industryThreats idea

/-- The accumulated `risk_factors` list: appends in source section order. -/
def riskFactorsFull (idea : BusinessIdea) : List String :=
  targetRisks idea ++ costRisks idea ++ distributionRisks idea

/-- The tier word of the first summary string:
`'strong' if score > 70 else 'moderate' if score > 40 else 'weak'`. -/
def tierWord (score : Int) : String :=
  if score > 70 then "strong" else if score > 40 then "moderate" else "weak"

/-- `# Generate summary`: the three f-strings, built from the clamped score
and the (untruncated) `strengths` and `threats` accumulators. -/
def summaryLines (idea : BusinessIdea) : List String :=
  [ idea.businessName ++ " shows " ++ tierWord (clampScore (rawScore idea))
      ++ " market potential"
  , "Key strength: " ++ (strengthsFull idea).headD "Need to identify core strengths"
  , "Main challenge: " ++ (threatsFull idea).headD "Need to assess market risks" ]

/-- The Fallback Scorer `analyze_business_idea` (`backend/main.py`): runs
the rule sections, clamps the score, generates the summary, and returns the
result dict with every accumulator list truncated to its first 3 entries. -/
def analyze_business_idea (idea : BusinessIdea) : AnalysisResult :=
  { swot_analysis :=
      { strengths := (strengthsFull idea).take 3
      , weaknesses := (weaknessesFull idea).take 3
      , opportunities := (opportunitiesFull idea).take 3
      , threats := (threatsFull idea).take 3 }
  , viability_score := clampScore (rawScore idea)
  , risk_factors := (riskFactorsFull idea).take 3
  , summary := summaryLines idea }

/-! ### The Enrichment Attempt

`get_ai_analysis` issues one outbound HTTP call and parses the generated
text.  The environment of that call is modelled by `HttpOutcome`; the
shape-dependent extraction `result[0]['generated_text']` is folded into
the outcome (`none` when the response body does not have that shape, in
which case the Python code raises and the generic `except Exception`
catches).  `json.loads` is modelled by an explicit decoding oracle
`loads : String → Option J` into an arbitrary parsed-JSON type `J`,
returning `none` exactly when `json.loads` would raise `ValueError`. -/

/-- Outcome of `requests.post(API_URL, ..., timeout=10)` followed by
`raise_for_status`/`json()`/indexing, as seen by `get_ai_analysis`:
* `timeout` — `requests.Timeout` raised by the call;
* `requestException` — any other `requests.RequestException`;
* `success ok gt` — a response arrived; `ok` is false when
  `raise_for_status()` raises (non-success status), `gt` is the
  `result[0]['generated_text']` string, or `none` when decoding the body
  or that indexing raises. -/
inductive HttpOutcome where
  | timeout : HttpOutcome
  | requestException : HttpOutcome
  | success (statusOk : Bool) (generatedText : Option String) : HttpOutcome
  deriving Repr, DecidableEq

/-- The exception classes that can escape the `try` block of
`get_ai_analysis`, as distinguished by its two `except` clauses. -/
inductive PyExc where
  | timeoutExc : PyExc
  | requestExc : PyExc
  | otherExc : PyExc
  deriving Repr, DecidableEq

/-- Python `text.find(c)`: index of the first occurrence, `-1` if none. -/
def pyFindAux (c : Char) : List Char → Int → Int
  | [], _ => -1
  | a :: t, i => if a == c then i else pyFindAux c t (i + 1)

/-- `str.find` for a single-character needle (`analysis_text.find('{')`). -/
def pyFind (s : String) (c : Char) : Int :=
  pyFindAux c s.toList 0

/-- Python `text.rfind(c)`: index of the last occurrence, `-1` if none,
computed by a left-to-right scan remembering the last hit. -/
def pyRfindAux (c : Char) : List Char → Int → Int → Int
  | [], _, acc => acc
  | a :: t, i, acc => pyRfindAux c t (i + 1) (if a == c then i else acc)

/-- `str.rfind` for a single-character needle (`analysis_text.rfind('}')`). -/
def pyRfind (s : String) (c : Char) : Int :=
  pyRfindAux c s.toList 0 (-1)

/-- Python slicing `s[a:b]` for `0 ≤ a` (the only case exercised:
`analysis_text[json_start:json_end]` under `json_start >= 0`). -/
def pySlice (s : String) (a b : Int) : String :=
  String.mk (((s.toList).drop a.toNat).take (b - a).toNat)

/-- The opening-brace character `'\x7b'` scanned for by `find`. -/
def lbraceChar : Char := Char.ofNat 123

/-- The closing-brace character `'\x7d'` scanned for by `rfind`. -/
def rbraceChar : Char := Char.ofNat 125

/-- The `try` block of `get_ai_analysis` (`backend/main.py`): returns the
parsed JSON of the brace-delimited substring, or the exception that the
block raises.  `loads` models `json.loads` (`none` = `ValueError`). -/
def get_ai_analysis_try (J : Type) (loads : String → Option J)
    (o : HttpOutcome) : Except PyExc J :=
  match o with
  | .timeout => .error .timeoutExc
  | .requestException => .error .requestExc
  | .success statusOk generatedText =>
    if statusOk = false then .error .requestExc
    else
      match generatedText with
      | none => .error .otherExc
      | some text =>
        let jsonStart := pyFind text lbraceChar
        let jsonEnd := pyRfind text rbraceChar + 1
        if jsonStart ≥ 0 ∧ jsonEnd > jsonStart then
          match loads (pySlice text jsonStart jsonEnd) with
          | some j => .ok j
          | none => .error .otherExc
        else .error .otherExc

/-- `get_ai_analysis` (`backend/main.py`): the `try` block with both
`except` clauses, each of which returns `analyze_business_idea(idea)`.
`Sum.inl j` is the parsed enrichment JSON returned on success, `Sum.inr r`
the Fallback Scorer result returned by an `except` clause. -/
def get_ai_analysis (J : Type) (loads : String → Option J)
    (idea : BusinessIdea) (o : HttpOutcome) : J ⊕ AnalysisResult :=
  match get_ai_analysis_try J loads o with
  | .ok j => .inl j
  | .error _ => .inr (analyze_business_idea idea)

/-- What the request handler observes about the enrichment attempt under
the outer 15-second budget (`future.result(timeout=15)`): either
`get_ai_analysis` completed in time with some `HttpOutcome` environment,
or the outer budget expired first. -/
inductive OuterEvent where
  | completed (o : HttpOutcome) : OuterEvent
  | outerTimeout : OuterEvent
  deriving Repr, DecidableEq

/-- The analysis-selection core of `evaluate_idea` (`backend/main.py`):
the returned `analysis` value.  On `completed o` the handler uses the
value returned by `get_ai_analysis`; on expiry of the outer budget
`future.result` raises and the `except` clause computes
`analyze_business_idea(idea)`. -/
def evaluate_idea (J : Type) (loads : String → Option J)
    (idea : BusinessIdea) (ev : OuterEvent) : J ⊕ AnalysisResult :=
  match ev with
  | .completed o => get_ai_analysis J loads idea o
  | .outerTimeout => .inr (analyze_business_idea idea)

/-- Schema validity of an `AnalysisResult`, following the spec's data
model: `viability_score` an integer in [0, 100], each of the four SWOT
lists and `risk_factors` capped at 3 entries, `summary` exactly 3
strings. -/
def schemaValidResult (r : AnalysisResult) : Bool :=
  decide (0 ≤ r.viability_score) && decide (r.viability_score ≤ 100)
    && decide (r.swot_analysis.strengths.length ≤ 3)
    && decide (r.swot_analysis.weaknesses.length ≤ 3)
    && decide (r.swot_analysis.opportunities.length ≤ 3)
    && decide (r.swot_analysis.threats.length ≤ 3)
    && decide (r.risk_factors.length ≤ 3)
    && decide (r.summary.length = 3)

/-- The spec's full-marks scenario input: `businessName="Acme"`,
`description="A"*150`, `targetMarket="global reach"`,
`revenueModel="subscription based"`, `costStructure="low overhead"`,
`distributionChannels="online only"`, `industry="SaaS"`. -/
def fullMarksIdea : BusinessIdea :=
  { businessName := "Acme"
  , description := String.mk (List.replicate 150 'A')
  , targetMarket := "global reach"
  , revenueModel := "subscription based"
  , costStructure := "low overhead"
  , distributionChannels := "online only"
  , industry := "SaaS" }

/-- The spec's all-empty scenario input: every field the empty string. -/
def emptyIdea : BusinessIdea :=
  { businessName := "", description := "", targetMarket := ""
  , revenueModel := "", costStructure := "", distributionChannels := ""
  , industry := "" }

set_option maxRecDepth 4000

/-! ### Helper lemmas -/

theorem rawScore_bounds (idea : BusinessIdea) :
    0 ≤ rawScore idea ∧ rawScore idea ≤ 100 := by
  have h1 : 0 ≤ descriptionDelta idea ∧ descriptionDelta idea ≤ 20 := by
    unfold descriptionDelta; split <;> omega
  have h2 : 0 ≤ targetDelta idea ∧ targetDelta idea ≤ 15 := by
    unfold targetDelta; split
    · omega
    · split <;> omega
  have h3 : 0 ≤ revenueDelta idea ∧ revenueDelta idea ≤ 20 := by
    unfold revenueDelta; split
    · omega
    · split <;> omega
  have h4 : 0 ≤ costDelta idea ∧ costDelta idea ≤ 15 := by
    unfold costDelta; split
    · omega
    · split <;> omega
  have h5 : 0 ≤ distributionDelta idea ∧ distributionDelta idea ≤ 15 := by
    unfold distributionDelta; split
    · omega
    · split <;> omega
  have h6 : 0 ≤ industryDelta idea ∧ industryDelta idea ≤ 15 := by
    unfold industryDelta; split
    · omega
    · split
      · omega
      · split <;> omega
  unfold rawScore; omega

theorem clampScore_of_bounds {s : Int} (h0 : 0 ≤ s) (h1 : s ≤ 100) :
    clampScore s = s := by
  unfold clampScore
  rw [max_eq_left h0, min_eq_left h1]

theorem length_take_le3 (l : List String) : (l.take 3).length ≤ 3 := by
  rw [List.length_take]
  exact min_le_left _ _

/-! ### Claim theorems -/

/-- C2: for every input the Fallback Scorer's `viability_score` equals the
unclamped sum of the triggered rule deltas, that sum lies in [0, 100], and
the final clamp is a no-op on every input. -/
theorem viability_score_eq_unclamped_sum (idea : BusinessIdea) :
    (analyze_business_idea idea).viability_score = rawScore idea
      ∧ 0 ≤ rawScore idea ∧ rawScore idea ≤ 100
      ∧ clampScore (rawScore idea) = rawScore idea := by
  obtain ⟨h0, h1⟩ := rawScore_bounds idea
  have hclamp := clampScore_of_bounds h0 h1
  exact ⟨hclamp, h0, h1, hclamp⟩

/-- C3: every list-valued output field of the Fallback Scorer is the
first-3 truncation (in rule-evaluation order) of the accumulated list,
hence has length at most 3, and `summary` has length exactly 3. -/
theorem output_lists_truncated_to_three (idea : BusinessIdea) :
    (analyze_business_idea idea).swot_analysis.strengths = (strengthsFull idea).take 3
      ∧ (analyze_business_idea idea).swot_analysis.weaknesses = (weaknessesFull idea).take 3
      ∧ (analyze_business_idea idea).swot_analysis.opportunities
          = (opportunitiesFull idea).take 3
      ∧ (analyze_business_idea idea).swot_analysis.threats = (threatsFull idea).take 3
      ∧ (analyze_business_idea idea).risk_factors = (riskFactorsFull idea).take 3
      ∧ (analyze_business_idea idea).swot_analysis.strengths.length ≤ 3
      ∧ (analyze_business_idea idea).swot_analysis.weaknesses.length ≤ 3
      ∧ (analyze_business_idea idea).swot_analysis.opportunities.length ≤ 3
      ∧ (analyze_business_idea idea).swot_analysis.threats.length ≤ 3
      ∧ (analyze_business_idea idea).risk_factors.length ≤ 3
      ∧ (analyze_business_idea idea).summary.length = 3 :=
  ⟨rfl, rfl, rfl, rfl, rfl,
   length_take_le3 _, length_take_le3 _, length_take_le3 _,
   length_take_le3 _, length_take_le3 _, rfl⟩

/-- C4: on every input (any seven strings) the Fallback Scorer returns a
value — it is a total function — and that value is schema-valid: score in
[0, 100], all five auxiliary lists capped at 3, summary of exactly 3. -/
theorem analyze_business_idea_total_and_schema_valid (idea : BusinessIdea) :
    (∃ r : AnalysisResult, analyze_business_idea idea = r)
      ∧ schemaValidResult (analyze_business_idea idea) = true := by
  refine ⟨⟨analyze_business_idea idea, rfl⟩, ?_⟩
  obtain ⟨h0, h1⟩ := rawScore_bounds idea
  have hclamp := clampScore_of_bounds h0 h1
  unfold schemaValidResult
  simp only [Bool.and_eq_true, decide_eq_true_eq]
  refine ⟨⟨⟨⟨⟨⟨⟨?_, ?_⟩, ?_⟩, ?_⟩, ?_⟩, ?_⟩, ?_⟩, rfl⟩ <;>
    simp only [analyze_business_idea, hclamp]
  · exact h0
  · exact h1
  · exact length_take_le3 _
  · exact length_take_le3 _
  · exact length_take_le3 _
  · exact length_take_le3 _
  · exact length_take_le3 _

/-- C5: the spec's full-marks scenario: score 100 (the unclamped sum
20+15+20+15+15+15, clamp a no-op), strengths truncated to the first three
strength entries in rule order, and tier "strong". -/
theorem scenario_full_marks :
    rawScore fullMarksIdea = 100
      ∧ clampScore (rawScore fullMarksIdea) = rawScore fullMarksIdea
      ∧ (analyze_business_idea fullMarksIdea).viability_score = 100
      ∧ (analyze_business_idea fullMarksIdea).swot_analysis.strengths
          = ["Detailed business description", "Recurring revenue model",
             "Low cost structure"]
      ∧ (analyze_business_idea fullMarksIdea).summary.headD ""
          = "Acme shows strong market potential" := by
  decide

/-- C6, counterexample: on the all-empty input the claim "all four SWOT
lists empty" fails — the description-length rule's `else` branch appends a
weakness, so `weaknesses` is not empty. -/
theorem empty_input_weaknesses_nonempty :
    (analyze_business_idea emptyIdea).swot_analysis.weaknesses ≠ [] := by
  decide

/-- C6, amended: on the all-empty input the score is 0, strengths,
opportunities and threats are empty while weaknesses holds exactly the
description-length weakness, the second and third summary strings use the
fixed placeholders, and the tier is "weak". -/
theorem empty_input_output :
    analyze_business_idea emptyIdea =
      { swot_analysis :=
          { strengths := []
          , weaknesses := ["Business description could be more detailed"]
          , opportunities := []
          , threats := [] }
      , viability_score := 0
      , risk_factors := []
      , summary := [" shows weak market potential",
                    "Key strength: Need to identify core strengths",
                    "Main challenge: Need to assess market risks"] } := by
  decide

/-- C7: first-match-wins exclusivity of the paired free-text rules — when
both words of a pair occur, only the first-checked branch's delta and list
contributions apply (and in particular the local-market strength never
reaches the output when "global" also matches); likewise for
subscription/one-time, low/high, online/physical. -/
theorem rule_pairs_first_match_wins :
    (∀ idea : BusinessIdea, containsLower idea.targetMarket "global" = true →
        containsLower idea.targetMarket "local" = true →
      targetDelta idea = 15 ∧ targetStrengths idea = []
        ∧ targetOpportunities idea = ["Global market potential"]
        ∧ targetRisks idea = ["International market challenges"]
        ∧ "Focused local market approach"
            ∉ (analyze_business_idea idea).swot_analysis.strengths)
      ∧ (∀ idea : BusinessIdea, containsLower idea.revenueModel "subscription" = true →
          containsLower idea.revenueModel "one-time" = true →
        revenueDelta idea = 20 ∧ revenueStrengths idea = ["Recurring revenue model"]
          ∧ revenueWeaknesses idea = [])
      ∧ (∀ idea : BusinessIdea, containsLower idea.costStructure "low" = true →
          containsLower idea.costStructure "high" = true →
        costDelta idea = 15 ∧ costStrengths idea = ["Low cost structure"]
          ∧ costRisks idea = [])
      ∧ (∀ idea : BusinessIdea, containsLower idea.distributionChannels "online" = true →
          containsLower idea.distributionChannels "physical" = true →
        distributionDelta idea = 15
          ∧ distributionStrengths idea = ["Online distribution capability"]
          ∧ distributionOpportunities idea = ["Digital market reach"]
          ∧ distributionRisks idea = []) := by
  refine ⟨?_, ?_, ?_, ?_⟩
  · intro idea h1 h2
    have ht : targetStrengths idea = [] := by simp [targetStrengths, h1]
    refine ⟨by simp [targetDelta, h1], ht, by simp [targetOpportunities, h1],
      by simp [targetRisks, h1], ?_⟩
    have hfull : "Focused local market approach" ∉ strengthsFull idea := by
      unfold strengthsFull descriptionStrengths revenueStrengths costStrengths
        distributionStrengths industryStrengths
      rw [ht]
      repeat' split <;> simp
    intro hmem
    exact hfull ((List.take_subset 3 _) hmem)
  · intro idea h1 h2
    exact ⟨by simp [revenueDelta, h1], by simp [revenueStrengths, h1],
      by simp [revenueWeaknesses, h1]⟩
  · intro idea h1 h2
    exact ⟨by simp [costDelta, h1], by simp [costStrengths, h1],
      by simp [costRisks, h1]⟩
  · intro idea h1 h2
    exact ⟨by simp [distributionDelta, h1], by simp [distributionStrengths, h1],
      by simp [distributionOpportunities, h1], by simp [distributionRisks, h1]⟩

/-- C7, witness: a concrete input in which both words of every pair occur
triggers only the first-checked branch of each pair. -/
theorem rule_pairs_first_match_wins_witness :
    targetDelta
        { businessName := "W", description := "", targetMarket := "global local"
        , revenueModel := "subscription one-time", costStructure := "low high"
        , distributionChannels := "online physical", industry := "" } = 15
      ∧ revenueDelta
        { businessName := "W", description := "", targetMarket := "global local"
        , revenueModel := "subscription one-time", costStructure := "low high"
        , distributionChannels := "online physical", industry := "" } = 20
      ∧ costDelta
        { businessName := "W", description := "", targetMarket := "global local"
        , revenueModel := "subscription one-time", costStructure := "low high"
        , distributionChannels := "online physical", industry := "" } = 15
      ∧ distributionDelta
        { businessName := "W", description := "", targetMarket := "global local"
        , revenueModel := "subscription one-time", costStructure := "low high"
        , distributionChannels := "online physical", industry := "" } = 15 :=
  ⟨(rule_pairs_first_match_wins.1 _ (by decide) (by decide)).1,
   (rule_pairs_first_match_wins.2.1 _ (by decide) (by decide)).1,
   (rule_pairs_first_match_wins.2.2.1 _ (by decide) (by decide)).1,
   (rule_pairs_first_match_wins.2.2.2 _ (by decide) (by decide)).1⟩

/-- C10: only the exact, case-sensitive industry value "E-commerce" ever
populates the threats list, with exactly one entry; hence threats has
length at most 1, and for any other industry the third summary string is
the fixed placeholder. -/
theorem threats_only_from_exact_ecommerce (idea : BusinessIdea) :
    threatsFull idea
        = (if idea.industry = "E-commerce"
            then ["High competition in e-commerce"] else [])
      ∧ (analyze_business_idea idea).swot_analysis.threats.length ≤ 1
      ∧ (idea.industry ≠ "E-commerce" →
          (analyze_business_idea idea).summary.getD 2 ""
            = "Main challenge: Need to assess market risks") := by
  have hth : threatsFull idea
      = (if idea.industry = "E-commerce"
          then ["High competition in e-commerce"] else []) := by
    unfold threatsFull industryThreats
    by_cases hS : idea.industry = "SaaS"
    · simp [hS]
    · simp only [if_neg hS]
  refine ⟨hth, ?_, ?_⟩
  · show ((threatsFull idea).take 3).length ≤ 1
    rw [hth]
    split <;> simp
  · intro hne
    have hempty : threatsFull idea = [] := by rw [hth, if_neg hne]
    show (summaryLines idea).getD 2 "" = _
    unfold summaryLines
    simp [hempty]

/-- C10, witness: at a concrete non-"E-commerce" industry the third
summary line is the placeholder. -/
theorem threats_only_from_exact_ecommerce_witness :
    emptyIdea.industry ≠ "E-commerce"
      ∧ (analyze_business_idea emptyIdea).summary.getD 2 ""
          = "Main challenge: Need to assess market risks" :=
  ⟨by decide, (threats_only_from_exact_ecommerce emptyIdea).2.2 (by decide)⟩

/-- C1: every failure of the enrichment attempt — timeout or request
exception on the outbound call, non-success status, body without the
expected shape, no brace-delimited region in the generated text, or the
extracted substring failing to decode — makes `get_ai_analysis` return
exactly the Fallback Scorer's result on the same input. -/
theorem enrichment_failure_returns_fallback (J : Type) (loads : String → Option J)
    (idea : BusinessIdea) (o : HttpOutcome)
    (h : o = .timeout ∨ o = .requestException
        ∨ (∃ gt, o = .success false gt)
        ∨ o = .success true none
        ∨ ∃ text, o = .success true (some text)
            ∧ (¬(pyFind text lbraceChar ≥ 0
                  ∧ pyRfind text rbraceChar + 1 > pyFind text lbraceChar)
              ∨ loads (pySlice text (pyFind text lbraceChar)
                  (pyRfind text rbraceChar + 1)) = none)) :
    get_ai_analysis J loads idea o = Sum.inr (analyze_business_idea idea) := by
  rcases h with h | h | ⟨gt, h⟩ | h | ⟨text, h, hfail⟩ <;> subst h
  · rfl
  · rfl
  · rfl
  · rfl
  · rcases hfail with hnb | hload
    · simp [get_ai_analysis, get_ai_analysis_try, hnb]
    · by_cases hb : pyFind text lbraceChar ≥ 0
          ∧ pyRfind text rbraceChar + 1 > pyFind text lbraceChar
      · simp [get_ai_analysis, get_ai_analysis_try, hb, hload]
      · simp [get_ai_analysis, get_ai_analysis_try, hb]

/-- C1, witness: a timeout on the outbound call yields the Fallback
Scorer's result. -/
theorem enrichment_failure_returns_fallback_witness :
    get_ai_analysis Unit (fun _ => none) emptyIdea HttpOutcome.timeout
      = Sum.inr (analyze_business_idea emptyIdea) :=
  enrichment_failure_returns_fallback Unit (fun _ => none) emptyIdea
    HttpOutcome.timeout (Or.inl rfl)

/-- C9: `get_ai_analysis` never raises — on every call outcome it returns
either a parsed enrichment value or exactly the Fallback Scorer's result —
so the handler's returned analysis on a completed attempt is
`get_ai_analysis`'s value, and the handler's except-branch fallback is the
outer-timeout arm alone. -/
theorem handler_fallback_only_on_outer_timeout (J : Type)
    (loads : String → Option J) (idea : BusinessIdea) :
    (∀ o, (∃ j, get_ai_analysis J loads idea o = Sum.inl j)
        ∨ get_ai_analysis J loads idea o = Sum.inr (analyze_business_idea idea))
      ∧ (∀ o, evaluate_idea J loads idea (.completed o)
          = get_ai_analysis J loads idea o)
      ∧ evaluate_idea J loads idea .outerTimeout
          = Sum.inr (analyze_business_idea idea) := by
  refine ⟨?_, fun o => rfl, rfl⟩
  intro o
  cases htry : get_ai_analysis_try J loads o with
  | ok j => exact Or.inl ⟨j, by simp [get_ai_analysis, htry]⟩
  | error e => exact Or.inr (by simp [get_ai_analysis, htry])
